import Mathlib

/-!
Shallow embedding of `SteamIconsFix.py`.

The script's observable behaviour is modelled with explicit state passing:
the file system is an association list from paths to byte lists, Python
exceptions are an explicit `PyExc` type threaded through `Except`, and the
external world (Steam session, HTTP responses, the SteamCMD subprocess, the
output file's contents) is an environment record `FetchEnv` consumed by
`fetch_icon_by_app_id`.  Line parsing operates on `List Char`, matching
Python string operations (`in`, `strip`, `split('"')`) character for
character.  `os.path.join` is modelled with a `/` separator.
-/

set_option autoImplicit false

namespace SteamIconsFix

/-- Python exception classes relevant to the script's `except` clauses. -/
inductive PyExc where
  | calledProcessError
  | requestException
  | osError
  | indexError
  | otherError
  deriving DecidableEq, Repr

/-- An HTTP response as seen through `requests.get`: status code and body bytes. -/
structure HttpResponse where
  status : Nat
  content : List Nat
  deriving DecidableEq, Repr

/-- One entry of the script's `failed_icons` list:
`{"appid": ..., "name": ..., "reason": ...}`. -/
structure FailureRecord where
  appid : String
  name : String
  reason : String
  deriving DecidableEq, Repr

/-- The local disk, as a path-to-bytes association list (later writes shadow
earlier ones via `fsWrite`). -/
abbrev FS := List (String × List Nat)

/-- Writing a file: overwrite any existing entry at the same path. -/
def fsWrite (fs : FS) (p : String) (b : List Nat) : FS :=
  (p, b) :: fs.filter (fun e => !(e.1 == p))

/-- Writing the same bytes to the same path twice is the same as once. -/
theorem fsWrite_idem (fs : FS) (p : String) (b : List Nat) :
    fsWrite (fsWrite fs p b) p b = fsWrite fs p b := by
  simp [fsWrite]

/-! ### Character-list utilities (Python string operations) -/

/-- Python `str.strip()` whitespace set (the characters relevant here). -/
def isSpaceChar (c : Char) : Bool :=
  c = ' ' || c = '\t' || c = '\n' || c = '\r' || c = '\x0b' || c = '\x0c'

/-- Python `line.strip()`. -/
def trimChars (s : List Char) : List Char :=
  ((s.dropWhile isSpaceChar).reverse.dropWhile isSpaceChar).reverse

/-- Python `s.split(sep)` for a single-character separator. -/
def splitOnChar (sep : Char) : List Char → List (List Char)
  | [] => [[]]
  | c :: rest =>
    let r := splitOnChar sep rest
    if c = sep then [] :: r
    else
      match r with
      | [] => [[c]]
      | h :: t => (c :: h) :: t

/-- Prefix test on character lists. -/
def isPre : List Char → List Char → Bool
  | [], _ => true
  | _ :: _, [] => false
  | c :: p, d :: s => c = d && isPre p s

/-- Python `p in s` (substring occurrence). -/
def occursB (p : List Char) : List Char → Bool
  | [] => isPre p []
  | c :: rest => isPre p (c :: rest) || occursB p rest

/-- Number of occurrences of a character in a list. -/
def chCount (a : Char) : List Char → Nat
  | [] => 0
  | c :: rest => (if c = a then 1 else 0) + chCount a rest

theorem chCount_append (a : Char) (l m : List Char) :
    chCount a (l ++ m) = chCount a l + chCount a m := by
  induction l with
  | nil => simp [chCount]
  | cons c rest ih => simp [chCount, ih]; omega

theorem chCount_reverse (a : Char) (l : List Char) :
    chCount a l.reverse = chCount a l := by
  induction l with
  | nil => rfl
  | cons c rest ih => simp [chCount, List.reverse_cons, chCount_append, ih]; omega

theorem chCount_dropWhile_isSpace (l : List Char) :
    chCount '"' (l.dropWhile isSpaceChar) = chCount '"' l := by
  induction l with
  | nil => rfl
  | cons c rest ih =>
    by_cases h : isSpaceChar c = true
    · have hne : ¬(c = '"') := by
        intro hc; subst hc; simp [isSpaceChar] at h
      simp [List.dropWhile, h, chCount, hne, ih]
    · simp [List.dropWhile, h, chCount]

/-- `strip` does not change the number of double quotes in a line. -/
theorem chCount_trimChars (l : List Char) :
    chCount '"' (trimChars l) = chCount '"' l := by
  simp [trimChars, chCount_reverse, chCount_dropWhile_isSpace]

/-- `split` produces one more part than the number of separators. -/
theorem splitOnChar_length (sep : Char) (s : List Char) :
    (splitOnChar sep s).length = chCount sep s + 1 := by
  induction s with
  | nil => simp [splitOnChar, chCount]
  | cons c rest ih =>
    by_cases h : c = sep
    · simp [splitOnChar, h, chCount, ih]
      omega
    · have hcs : ¬(c = sep) := h
      simp only [splitOnChar, chCount, hcs, if_false]
      cases hr : splitOnChar sep rest with
      | nil => rw [hr] at ih; simp at ih
      | cons hd tl =>
        rw [hr] at ih
        simp at ih ⊢
        omega

theorem isPre_chCount (a : Char) (p s : List Char) (h : isPre p s = true) :
    chCount a p ≤ chCount a s := by
  induction p generalizing s with
  | nil => simp [chCount]
  | cons c pr ih =>
    cases s with
    | nil => simp [isPre] at h
    | cons d sr =>
      simp [isPre] at h
      obtain ⟨hcd, hpre⟩ := h
      subst hcd
      have := ih sr hpre
      simp [chCount]
      omega

theorem occursB_chCount (a : Char) (p s : List Char) (h : occursB p s = true) :
    chCount a p ≤ chCount a s := by
  induction s with
  | nil => exact isPre_chCount a p [] (by simpa [occursB] using h)
  | cons c rest ih =>
    simp [occursB] at h
    rcases h with h | h
    · exact isPre_chCount a p (c :: rest) h
    · have := ih h
      simp [chCount]
      omega

/-! ### Download step (`download_icon`, lines 301-325) -/

/-- The icon CDN URL built at both call sites of `download_icon`. -/
def icon_url (app_id client_icon_filename : String) : String :=
  "https://cdn.cloudflare.steamstatic.com/steamcommunity/public/images/apps/"
    ++ app_id ++ "/" ++ client_icon_filename ++ ".ico"

/-- The target path `os.path.join(steamcmd_install_dir, "steam", "games",
client_icon_filename + ".ico")`, with `/` as separator. -/
def icon_file_path (steamcmd_install_dir client_icon_filename : String) : String :=
  steamcmd_install_dir ++ "/steam/games/" ++ client_icon_filename ++ ".ico"

/-- `download_icon`: one `requests.get` on `client_icon_url`; on status 200
write the body to the icon path (the `os.makedirs` call is directory
creation only and does not affect the path-to-bytes map); on any other
status append a `failed_to_download` record.  `requests.get` can raise; the
function has no handler, so the error is returned to the caller. -/
def download_icon (http : String → Except PyExc HttpResponse)
    (app_id client_icon_filename client_icon_url game_name steamcmd_install_dir : String)
    (fs : FS) (failed_icons : List FailureRecord) :
    Except PyExc (FS × List FailureRecord) :=
  match http client_icon_url with
  | Except.error e => Except.error e
  | Except.ok response =>
    if response.status = 200 then
      Except.ok
        (fsWrite fs (icon_file_path steamcmd_install_dir client_icon_filename)
          response.content,
         failed_icons)
    else
      Except.ok (fs, failed_icons ++ [⟨app_id, game_name, "failed_to_download"⟩])

/-! ### Icon acquisition engine (`fetch_icon_by_app_id`, lines 157-298) -/

/-- Outcome of the connected-session metadata lookup
(`client.get_product_info` and the dictionary accesses on its result). -/
inductive FastMeta where
  /-- `get_product_info` (or `int(app_id)`, or the `apps[...]` lookup) raised. -/
  | throws
  /-- `app_info` was falsy. -/
  | empty
  /-- the product entry had no `common`/`clienticon` field. -/
  | noClientIcon
  /-- `app['common']['clienticon']` was present with this value. -/
  | clientIcon (stem : String)
  deriving DecidableEq, Repr

/-- How far the zip download/extraction inside `download_and_extract` got. -/
inductive ZipStep where
  | ok
  /-- `requests.get` raised `requests.RequestException`. -/
  | httpRaise
  /-- non-200 status: `raise Exception("Failed to download the file...")`. -/
  | badStatus
  /-- `zipfile.ZipFile` raised `zipfile.BadZipFile`. -/
  | badZip
  /-- `testzip()` was not `None`: `raise Exception("...not a valid zip...")`. -/
  | testzipFail
  /-- `extractall` raised. -/
  | extractRaise
  deriving DecidableEq, Repr

/-- Environment of one `download_and_extract` call. -/
structure DAEEnv where
  /-- `os.path.isdir(path) and os.access(path, os.W_OK)`. -/
  path_ok : Bool
  step : ZipStep
  deriving DecidableEq, Repr

/-- `download_and_extract` (lines 68-102).  The precondition check raises
*outside* the `try`, so its exception reaches the caller; every error inside
the `try` (request error, bad status, bad zip, failed `testzip`, failed
`extractall`) is caught by the `except` clauses and only printed, after
which the function returns normally. -/
def download_and_extract (e : DAEEnv) : Except PyExc Unit :=
  if !e.path_ok then Except.error PyExc.otherError
  else
    match e.step with
    | ZipStep.ok => Except.ok ()
    | ZipStep.httpRaise => Except.ok ()
    | ZipStep.badStatus => Except.ok ()
    | ZipStep.badZip => Except.ok ()
    | ZipStep.testzipFail => Except.ok ()
    | ZipStep.extractRaise => Except.ok ()

/-- Environment of one `fetch_icon_by_app_id` call: the session state, the
HTTP world, and the SteamCMD subprocess/file world. -/
structure FetchEnv where
  /-- `client.connected`. -/
  connected : Bool
  fastMeta : FastMeta
  /-- `requests.get` as used by `download_icon`. -/
  dlHttp : String → Except PyExc HttpResponse
  /-- `os.path.exists(steamcmd_exe_path)`. -/
  steamcmd_exists : Bool
  dae : DAEEnv
  /-- the `+quit` self-update `subprocess.run` (lines 219-224). -/
  update_run : Except PyExc Unit
  /-- the main SteamCMD `subprocess.run` (line 251). -/
  run_result : Except PyExc Unit
  /-- `open(output_file).readlines()` (lines 257-258). -/
  read_lines : Except PyExc (List (List Char))

/-- Result of one `fetch_icon_by_app_id` call. -/
inductive FetchOutcome where
  /-- returned normally with this disk and failure-list state. -/
  | normal (fs : FS) (failed_icons : List FailureRecord)
  /-- an exception escaped the function. -/
  | raised (e : PyExc) (fs : FS) (failed_icons : List FailureRecord)
  /-- `exit(1)` was reached. -/
  | exited (code : Nat) (fs : FS) (failed_icons : List FailureRecord)
  deriving DecidableEq, Repr

/-- The failure list carried by an outcome. -/
def FetchOutcome.failedList : FetchOutcome → List FailureRecord
  | FetchOutcome.normal _ f => f
  | FetchOutcome.raised _ _ f => f
  | FetchOutcome.exited _ _ f => f

/-- The quoted key searched for in each SteamCMD output line. -/
def clienticonKey : List Char := "\"clienticon\"".data

/-- Result of the line scan of the SteamCMD output (lines 263-287). -/
inductive ScanResult where
  /-- a line contained the key; `parts[3]` was in bounds with this value. -/
  | found (stem : List Char)
  /-- a line contained the key and passed `len(parts) > 1`, but `parts[3]`
  was out of bounds: `IndexError`. -/
  | idxError
  /-- no line triggered the `break`. -/
  | notFound
  deriving DecidableEq, Repr

/-- The scan loop: for the first line containing `"clienticon"`, split the
stripped line at `"` and, if more than one part, take `parts[3]`; lines
failing the length check are skipped and the loop continues. -/
def scan_lines : List (List Char) → ScanResult
  | [] => ScanResult.notFound
  | line :: rest =>
    if occursB clienticonKey line then
      let parts := splitOnChar '"' (trimChars line)
      if parts.length > 1 then
        if h : 3 < parts.length then ScanResult.found (parts.get ⟨3, h⟩)
        else ScanResult.idxError
      else scan_lines rest
    else scan_lines rest

/-- The fast path (lines 167-190): everything, including the call to
`download_icon`, sits inside `try ... except Exception`, so every error is
caught and only printed; the branch always returns normally. -/
def fast_path (env : FetchEnv) (steamPath app_id game_name : String)
    (fs : FS) (failed_icons : List FailureRecord) : FetchOutcome :=
  match env.fastMeta with
  | FastMeta.clientIcon stem =>
    match download_icon env.dlHttp app_id stem (icon_url app_id stem)
        game_name steamPath fs failed_icons with
    | Except.ok (fs', failed') => FetchOutcome.normal fs' failed'
    | Except.error _ => FetchOutcome.normal fs failed_icons
  | FastMeta.throws => FetchOutcome.normal fs failed_icons
  | FastMeta.empty => FetchOutcome.normal fs failed_icons
  | FastMeta.noClientIcon => FetchOutcome.normal fs failed_icons

/-- Lines 200-231: if `steamcmd.exe` is absent, download and extract it and
run the `+quit` self-update.  `Except.error ()` means the outer
`except Exception` fired and `exit(1)` runs: that happens when
`download_and_extract` raises (its precondition check) or when the
self-update `subprocess.run` raises anything but the locally caught
`subprocess.CalledProcessError`. -/
def ensure_steamcmd (env : FetchEnv) : Except Unit Unit :=
  if env.steamcmd_exists then Except.ok ()
  else
    match download_and_extract env.dae with
    | Except.error _ => Except.error ()
    | Except.ok _ =>
      match env.update_run with
      | Except.ok _ => Except.ok ()
      | Except.error e =>
        if e = PyExc.calledProcessError then Except.ok () else Except.error ()

/-- The `try` block of the fallback path (lines 249-298): run SteamCMD, read
the output file, scan for the icon, download it or record `icon_not_found`.
The sole `except` clause catches only `subprocess.CalledProcessError`; any
other exception (transport error in `download_icon`, file-read error,
`IndexError` from `parts[3]`) escapes the function. -/
def fallback_try (env : FetchEnv) (steamPath app_id game_name : String)
    (fs : FS) (failed_icons : List FailureRecord) : FetchOutcome :=
  match env.run_result with
  | Except.error e =>
    if e = PyExc.calledProcessError then FetchOutcome.normal fs failed_icons
    else FetchOutcome.raised e fs failed_icons
  | Except.ok _ =>
    match env.read_lines with
    | Except.error e =>
      if e = PyExc.calledProcessError then FetchOutcome.normal fs failed_icons
      else FetchOutcome.raised e fs failed_icons
    | Except.ok lines =>
      match scan_lines lines with
      | ScanResult.notFound =>
        FetchOutcome.normal fs
          (failed_icons ++ [⟨app_id, game_name, "icon_not_found"⟩])
      | ScanResult.idxError =>
        FetchOutcome.raised PyExc.indexError fs failed_icons
      | ScanResult.found stem =>
        match download_icon env.dlHttp app_id (String.mk stem)
            (icon_url app_id (String.mk stem)) game_name steamPath
            fs failed_icons with
        | Except.ok (fs', failed') => FetchOutcome.normal fs' failed'
        | Except.error e =>
          if e = PyExc.calledProcessError then FetchOutcome.normal fs failed_icons
          else FetchOutcome.raised e fs failed_icons

/-- `fetch_icon_by_app_id` (lines 157-298): fast path when the session is
connected (then return), otherwise ensure SteamCMD is present (possibly
exiting the process) and run the fallback `try` block. -/
def fetch_icon_by_app_id (env : FetchEnv) (steamPath app_id game_name : String)
    (fs : FS) (failed_icons : List FailureRecord) : FetchOutcome :=
  if env.connected then
    fast_path env steamPath app_id game_name fs failed_icons
  else
    match ensure_steamcmd env with
    | Except.error _ => FetchOutcome.exited 1 fs failed_icons
    | Except.ok _ => fallback_try env steamPath app_id game_name fs failed_icons

/-! ### Batch orchestrator (`main`, lines 376-467) -/

/-- One `{"name": ..., "appid": ...}` entry from `get_steam_games`. -/
structure Game where
  appid : String
  name : String
  deriving DecidableEq, Repr

/-- How a batch run ended. -/
inductive BStatus where
  | normal
  | raised (e : PyExc)
  | exited (code : Nat)
  deriving DecidableEq, Repr

/-- Result of a batch loop: its status, the app ids actually passed to
`fetch_icon_by_app_id` (in call order), and the final disk and failure-list
state. -/
structure BatchOutcome where
  status : BStatus
  calls : List String
  fs : FS
  failed : List FailureRecord
  deriving DecidableEq, Repr

/-- Record one call to the engine in front of a later outcome. -/
def BatchOutcome.consCall (id : String) (o : BatchOutcome) : BatchOutcome :=
  ⟨o.status, id :: o.calls, o.fs, o.failed⟩

/-- Lines 436-444: look the requested id up among the installed games; on a
hit use the manifest's id and name, otherwise the bare id and an empty
name. -/
def lookup_pair (games : List Game) (app_id : String) : String × String :=
  match games.find? (fun g => g.appid == app_id) with
  | some g => (g.appid, g.name)
  | none => (app_id, "")

/-- The explicit-argument branch of `main` (lines 423-444): skip `"228980"`,
look the id up in the installed games for a display name, and fetch.  An
exception or `exit(1)` inside `fetch_icon_by_app_id` ends the loop. -/
def run_batch (fenv : String → FetchEnv) (steam_path : String)
    (games : List Game) : List String → FS → List FailureRecord → BatchOutcome
  | [], fs, failed => ⟨BStatus.normal, [], fs, failed⟩
  | app_id :: rest, fs, failed =>
    if app_id = "228980" then run_batch fenv steam_path games rest fs failed
    else
      match fetch_icon_by_app_id (fenv app_id) steam_path
          (lookup_pair games app_id).1 (lookup_pair games app_id).2 fs failed with
      | FetchOutcome.normal fs' failed' =>
        BatchOutcome.consCall (lookup_pair games app_id).1
          (run_batch fenv steam_path games rest fs' failed')
      | FetchOutcome.raised e fs' failed' =>
        ⟨BStatus.raised e, [(lookup_pair games app_id).1], fs', failed'⟩
      | FetchOutcome.exited c fs' failed' =>
        ⟨BStatus.exited c, [(lookup_pair games app_id).1], fs', failed'⟩

/-- The `all` branch of `main` (lines 414-422): fetch for every installed
game, with no skipping. -/
def run_all (fenv : String → FetchEnv) (steam_path : String) :
    List Game → FS → List FailureRecord → BatchOutcome
  | [], fs, failed => ⟨BStatus.normal, [], fs, failed⟩
  | g :: rest, fs, failed =>
    match fetch_icon_by_app_id (fenv g.appid) steam_path g.appid g.name fs failed with
    | FetchOutcome.normal fs' failed' =>
      BatchOutcome.consCall g.appid (run_all fenv steam_path rest fs' failed')
    | FetchOutcome.raised e fs' failed' => ⟨BStatus.raised e, [g.appid], fs', failed'⟩
    | FetchOutcome.exited c fs' failed' => ⟨BStatus.exited c, [g.appid], fs', failed'⟩

/-- The retry command printed at line 465:
`print(f"python .\\SteamIconsFix.py \x7b' '.join(failed_app_ids)\x7d")`,
where `failed_app_ids` collects `game["appid"]` over `failed_icons` in list
order (lines 456-461). -/
def retry_command (failed_icons : List FailureRecord) : String :=
  "python .\\SteamIconsFix.py "
    ++ String.intercalate " " (failed_icons.map (fun r => r.appid))

/-- Lines 446-465: the retry command is printed exactly when `failed_icons`
is non-empty. -/
def retry_report (failed_icons : List FailureRecord) : Option String :=
  if failed_icons.isEmpty then none else some (retry_command failed_icons)

/-! ### Concrete environments used by witnesses and counterexamples -/

/-- Disconnected session, SteamCMD present, run succeeds, empty output
file: the fallback scan finds nothing. -/
def envNotFound : FetchEnv :=
  { connected := false
    fastMeta := FastMeta.throws
    dlHttp := fun _ => Except.error PyExc.requestException
    steamcmd_exists := true
    dae := { path_ok := true, step := ZipStep.ok }
    update_run := Except.ok ()
    run_result := Except.ok ()
    read_lines := Except.ok [] }

/-- A SteamCMD output line carrying a client icon value. -/
def iconLine : List Char := "\t\"clienticon\"\t\t\"abcd\"".data

/-- Disconnected session, SteamCMD present, output contains an icon line,
but the icon download's `requests.get` raises a transport error. -/
def envRaise : FetchEnv :=
  { connected := false
    fastMeta := FastMeta.throws
    dlHttp := fun _ => Except.error PyExc.requestException
    steamcmd_exists := true
    dae := { path_ok := true, step := ZipStep.ok }
    update_run := Except.ok ()
    run_result := Except.ok ()
    read_lines := Except.ok [iconLine] }

/-- Connected session whose metadata lookup finds no `clienticon` field. -/
def envConnectedNoIcon : FetchEnv :=
  { connected := true
    fastMeta := FastMeta.noClientIcon
    dlHttp := fun _ => Except.error PyExc.requestException
    steamcmd_exists := true
    dae := { path_ok := true, step := ZipStep.ok }
    update_run := Except.ok ()
    run_result := Except.ok ()
    read_lines := Except.ok [] }

/-- Disconnected session, SteamCMD absent, and the zip extraction inside
`download_and_extract` fails with `BadZipFile`. -/
def envZipFail : FetchEnv :=
  { connected := false
    fastMeta := FastMeta.throws
    dlHttp := fun _ => Except.error PyExc.requestException
    steamcmd_exists := false
    dae := { path_ok := true, step := ZipStep.badZip }
    update_run := Except.ok ()
    run_result := Except.ok ()
    read_lines := Except.ok [] }

/-- Disconnected session, SteamCMD absent, install path not writeable:
`download_and_extract` raises before its `try`. -/
def envExitPath : FetchEnv :=
  { connected := false
    fastMeta := FastMeta.throws
    dlHttp := fun _ => Except.error PyExc.requestException
    steamcmd_exists := false
    dae := { path_ok := false, step := ZipStep.ok }
    update_run := Except.ok ()
    run_result := Except.ok ()
    read_lines := Except.ok [] }

/-- Disconnected session, SteamCMD present, the SteamCMD invocation exits
non-zero (`CalledProcessError`), while the output file does hold a usable
icon line and the CDN would answer 200. -/
def envCPE : FetchEnv :=
  { connected := false
    fastMeta := FastMeta.throws
    dlHttp := fun _ => Except.ok { status := 200, content := [1, 2, 3] }
    steamcmd_exists := true
    dae := { path_ok := true, step := ZipStep.ok }
    update_run := Except.ok ()
    run_result := Except.error PyExc.calledProcessError
    read_lines := Except.ok [iconLine] }

/-! ### Structural lemmas about the engine -/

/-- A line containing the quoted key has at least two double quotes, so the
stripped line splits into at least three parts. -/
theorem parts_ge_three (line : List Char)
    (h : occursB clienticonKey line = true) :
    3 ≤ (splitOnChar '"' (trimChars line)).length := by
  have h2 : chCount '"' clienticonKey = 2 := by decide
  have hle := occursB_chCount '"' clienticonKey line h
  rw [h2] at hle
  rw [splitOnChar_length, chCount_trimChars]
  omega

/-- The scan comes back `notFound` exactly when no output line contains the
quoted `clienticon` key. -/
theorem scan_lines_notFound_iff (lines : List (List Char)) :
    scan_lines lines = ScanResult.notFound
      ↔ ∀ l ∈ lines, occursB clienticonKey l = false := by
  induction lines with
  | nil => simp [scan_lines]
  | cons line rest ih =>
    by_cases hocc : occursB clienticonKey line = true
    · have h3 := parts_ge_three line hocc
      constructor
      · intro h
        simp only [scan_lines, hocc, if_true] at h
        rw [if_pos (by omega)] at h
        by_cases h4 : 3 < (splitOnChar '"' (trimChars line)).length
        · rw [dif_pos h4] at h; cases h
        · rw [dif_neg h4] at h; cases h
      · intro h
        have := h line (by simp)
        rw [hocc] at this
        cases this
    · have hocc' : occursB clienticonKey line = false := by
        simpa using hocc
      simp [scan_lines, hocc', ih]

theorem ne_append_single (l : List FailureRecord) (r : FailureRecord) :
    l ≠ l ++ [r] := by simp

theorem ftd_ne_inf (a n : String) :
    (⟨a, n, "failed_to_download"⟩ : FailureRecord) ≠ ⟨a, n, "icon_not_found"⟩ := by
  intro h
  injection h with h1 h2 h3
  exact absurd h3 (by decide)

/-- `download_icon`, when it returns, either leaves the failure list alone
(status 200) or appends exactly one `failed_to_download` record. -/
theorem download_icon_failed_cases {http : String → Except PyExc HttpResponse}
    {app_id stem url game_name dir : String} {fs fs' : FS}
    {failed failed' : List FailureRecord}
    (h : download_icon http app_id stem url game_name dir fs failed
          = Except.ok (fs', failed')) :
    failed' = failed
      ∨ failed' = failed ++ [⟨app_id, game_name, "failed_to_download"⟩] := by
  unfold download_icon at h
  cases hh : http url with
  | error e => rw [hh] at h; cases h
  | ok resp =>
    rw [hh] at h
    by_cases hs : resp.status = 200
    · simp [hs] at h
      exact Or.inl h.2.symm
    · simp [hs] at h
      exact Or.inr h.2.symm

/-- The fast path returns normally and can only add `failed_to_download`
records, always carrying the current app id. -/
theorem fast_path_new (env : FetchEnv) (sp id nm : String) (fs : FS)
    (failed : List FailureRecord) :
    ∃ new, (fast_path env sp id nm fs failed).failedList = failed ++ new
      ∧ ∀ r ∈ new, r.appid = id ∧ r.reason = "failed_to_download" := by
  obtain ⟨conn, meta, http, sex, dae, upd, runr, rdl⟩ := env
  cases meta with
  | clientIcon stem =>
    cases hdl : download_icon http id stem (icon_url id stem) nm sp fs failed with
    | error e =>
      exact ⟨[], by simp [fast_path, FetchOutcome.failedList, hdl], by simp⟩
    | ok pr =>
      obtain ⟨fs1, failed1⟩ := pr
      rcases download_icon_failed_cases hdl with h | h
      · exact ⟨[], by simp [fast_path, FetchOutcome.failedList, hdl, h], by simp⟩
      · exact ⟨[⟨id, nm, "failed_to_download"⟩],
          by simp [fast_path, FetchOutcome.failedList, hdl, h], by simp⟩
  | throws => exact ⟨[], by simp [fast_path, FetchOutcome.failedList], by simp⟩
  | empty => exact ⟨[], by simp [fast_path, FetchOutcome.failedList], by simp⟩
  | noClientIcon => exact ⟨[], by simp [fast_path, FetchOutcome.failedList], by simp⟩

theorem fast_path_ne_raised (env : FetchEnv) (sp id nm : String) (fs : FS)
    (failed : List FailureRecord) (e : PyExc) (fs' : FS)
    (failed' : List FailureRecord) :
    fast_path env sp id nm fs failed ≠ FetchOutcome.raised e fs' failed' := by
  obtain ⟨conn, meta, http, sex, dae, upd, runr, rdl⟩ := env
  intro h
  cases meta with
  | clientIcon stem =>
    simp only [fast_path] at h
    cases hdl : download_icon http id stem (icon_url id stem) nm sp fs failed with
    | error e' => rw [hdl] at h; simp at h
    | ok pr => obtain ⟨a, b⟩ := pr; rw [hdl] at h; simp at h
  | throws => simp [fast_path] at h
  | empty => simp [fast_path] at h
  | noClientIcon => simp [fast_path] at h


theorem fallback_try_ne_exited (env : FetchEnv) (sp id nm : String) (fs : FS)
    (failed : List FailureRecord) (c : Nat) (fs' : FS)
    (failed' : List FailureRecord) :
    fallback_try env sp id nm fs failed ≠ FetchOutcome.exited c fs' failed' := by
  obtain ⟨conn, meta, http, sex, dae, upd, runr, rdl⟩ := env
  intro h
  cases runr with
  | error e =>
    by_cases hc : e = PyExc.calledProcessError <;> simp [fallback_try, hc] at h
  | ok u =>
    cases rdl with
    | error e =>
      by_cases hc : e = PyExc.calledProcessError <;> simp [fallback_try, hc] at h
    | ok lines =>
      cases hs : scan_lines lines with
      | notFound => simp [fallback_try, hs] at h
      | idxError => simp [fallback_try, hs] at h
      | found stem =>
        cases hdl : download_icon http id (String.mk stem)
            (icon_url id (String.mk stem)) nm sp fs failed with
        | error e =>
          by_cases hc : e = PyExc.calledProcessError <;> simp [fallback_try, hs, hdl, hc] at h
        | ok pr => obtain ⟨a, b⟩ := pr; simp [fallback_try, hs, hdl] at h

theorem fallback_try_new (env : FetchEnv) (sp id nm : String) (fs : FS)
    (failed : List FailureRecord) :
    ∃ new, (fallback_try env sp id nm fs failed).failedList = failed ++ new
      ∧ ∀ r ∈ new, r.appid = id := by
  obtain ⟨conn, meta, http, sex, dae, upd, runr, rdl⟩ := env
  cases runr with
  | error e =>
    by_cases hc : e = PyExc.calledProcessError <;>
      exact ⟨[], by simp [fallback_try, hc, FetchOutcome.failedList], by simp⟩
  | ok u =>
    cases rdl with
    | error e =>
      by_cases hc : e = PyExc.calledProcessError <;>
        exact ⟨[], by simp [fallback_try, hc, FetchOutcome.failedList], by simp⟩
    | ok lines =>
      cases hs : scan_lines lines with
      | notFound =>
        exact ⟨[⟨id, nm, "icon_not_found"⟩],
          by simp [fallback_try, hs, FetchOutcome.failedList], by simp⟩
      | idxError =>
        exact ⟨[], by simp [fallback_try, hs, FetchOutcome.failedList], by simp⟩
      | found stem =>
        cases hdl : download_icon http id (String.mk stem)
            (icon_url id (String.mk stem)) nm sp fs failed with
        | error e =>
          by_cases hc : e = PyExc.calledProcessError <;>
            exact ⟨[], by simp [fallback_try, hs, hdl, hc, FetchOutcome.failedList], by simp⟩
        | ok pr =>
          obtain ⟨fs1, failed1⟩ := pr
          rcases download_icon_failed_cases hdl with h | h
          · exact ⟨[], by simp [fallback_try, hs, hdl, FetchOutcome.failedList, h], by simp⟩
          · exact ⟨[⟨id, nm, "failed_to_download"⟩],
              by simp [fallback_try, hs, hdl, FetchOutcome.failedList, h], by simp⟩

theorem fetch_new_failures (env : FetchEnv) (sp id nm : String) (fs : FS)
    (failed : List FailureRecord) :
    ∃ new, (fetch_icon_by_app_id env sp id nm fs failed).failedList = failed ++ new
      ∧ ∀ r ∈ new, r.appid = id := by
  by_cases hc : env.connected
  · rcases fast_path_new env sp id nm fs failed with ⟨new, h1, h2⟩
    exact ⟨new, by simp [fetch_icon_by_app_id, hc, h1], fun r hr => (h2 r hr).1⟩
  · cases hens : ensure_steamcmd env with
    | error u =>
      exact ⟨[], by simp [fetch_icon_by_app_id, hc, hens, FetchOutcome.failedList], by simp⟩
    | ok u =>
      rcases fallback_try_new env sp id nm fs failed with ⟨new, h1, h2⟩
      exact ⟨new, by simp [fetch_icon_by_app_id, hc, hens, h1], h2⟩

/-- An exception escaping the fallback `try` block is never a
`CalledProcessError`: those are the only ones its `except` clause catches. -/
theorem fallback_try_raised_not_cpe (env : FetchEnv) (sp id nm : String)
    (fs : FS) (failed : List FailureRecord) (e : PyExc) (fs' : FS)
    (failed' : List FailureRecord)
    (h : fallback_try env sp id nm fs failed = FetchOutcome.raised e fs' failed') :
    e ≠ PyExc.calledProcessError := by
  obtain ⟨conn, meta, http, sex, dae, upd, runr, rdl⟩ := env
  cases runr with
  | error e0 =>
    by_cases hc : e0 = PyExc.calledProcessError
    · simp [fallback_try, hc] at h
    · simp [fallback_try, hc] at h
      rcases h with ⟨he, -, -⟩
      subst he
      exact hc
  | ok u =>
    cases rdl with
    | error e0 =>
      by_cases hc : e0 = PyExc.calledProcessError
      · simp [fallback_try, hc] at h
      · simp [fallback_try, hc] at h
        rcases h with ⟨he, -, -⟩
        subst he
        exact hc
    | ok lines =>
      cases hs : scan_lines lines with
      | notFound => simp [fallback_try, hs] at h
      | idxError =>
        simp [fallback_try, hs] at h
        rcases h with ⟨he, -, -⟩
        subst he
        decide
      | found stem =>
        cases hdl : download_icon http id (String.mk stem)
            (icon_url id (String.mk stem)) nm sp fs failed with
        | error e0 =>
          by_cases hc : e0 = PyExc.calledProcessError
          · simp [fallback_try, hs, hdl, hc] at h
          · simp [fallback_try, hs, hdl, hc] at h
            rcases h with ⟨he, -, -⟩
            subst he
            exact hc
        | ok pr =>
          obtain ⟨a, b⟩ := pr
          simp [fallback_try, hs, hdl] at h

/-- The fallback `try` block appends `icon_not_found` exactly when the
SteamCMD run and the file read both succeed and no output line contains the
quoted `clienticon` key. -/
theorem fallback_try_inf_iff (env : FetchEnv) (sp id nm : String) (fs : FS)
    (failed : List FailureRecord) :
    (fallback_try env sp id nm fs failed).failedList
        = failed ++ [⟨id, nm, "icon_not_found"⟩]
      ↔ env.run_result = Except.ok ()
          ∧ ∃ lines, env.read_lines = Except.ok lines
              ∧ ∀ l ∈ lines, occursB clienticonKey l = false := by
  obtain ⟨conn, meta, http, sex, dae, upd, runr, rdl⟩ := env
  cases runr with
  | error e0 =>
    by_cases hc : e0 = PyExc.calledProcessError <;>
      simp [fallback_try, hc, FetchOutcome.failedList]
  | ok u =>
    obtain ⟨⟩ := u
    cases rdl with
    | error e0 =>
      by_cases hc : e0 = PyExc.calledProcessError <;>
        simp [fallback_try, hc, FetchOutcome.failedList]
    | ok lines =>
      cases hs : scan_lines lines with
      | notFound =>
        simp only [fallback_try, hs, FetchOutcome.failedList]
        constructor
        · intro _
          exact ⟨trivial, lines, rfl, (scan_lines_notFound_iff lines).mp hs⟩
        · intro _
          trivial
      | idxError =>
        simp only [fallback_try, hs, FetchOutcome.failedList]
        constructor
        · intro h
          exact absurd h (ne_append_single _ _)
        · rintro ⟨-, lines', hl, hocc⟩
          injection hl with hl
          subst hl
          rw [(scan_lines_notFound_iff lines).mpr hocc] at hs
          cases hs
      | found stem =>
        cases hdl : download_icon http id (String.mk stem)
            (icon_url id (String.mk stem)) nm sp fs failed with
        | error e0 =>
          constructor
          · intro h
            exfalso
            by_cases hc : e0 = PyExc.calledProcessError <;>
              simp [fallback_try, hs, hdl, hc, FetchOutcome.failedList] at h
          · rintro ⟨-, lines', hl, hocc⟩
            injection hl with hl
            subst hl
            rw [(scan_lines_notFound_iff lines).mpr hocc] at hs
            cases hs
        | ok pr =>
          obtain ⟨fs1, failed1⟩ := pr
          constructor
          · intro h
            exfalso
            simp only [fallback_try, hs, hdl, FetchOutcome.failedList] at h
            rcases download_icon_failed_cases hdl with hcase | hcase
            · rw [hcase] at h
              exact absurd h (ne_append_single _ _)
            · rw [hcase] at h
              have := List.append_cancel_left h
              have : (⟨id, nm, "failed_to_download"⟩ : FailureRecord)
                  = ⟨id, nm, "icon_not_found"⟩ := by
                injection this
              exact absurd this (ftd_ne_inf id nm)
          · rintro ⟨-, lines', hl, hocc⟩
            injection hl with hl
            subst hl
            rw [(scan_lines_notFound_iff lines).mpr hocc] at hs
            cases hs

/-- The first component of a `main` lookup is always the requested id: on a
manifest hit, `find?` guarantees the manifest id equals the argument. -/
theorem lookup_pair_fst (games : List Game) (a : String) :
    (lookup_pair games a).1 = a := by
  unfold lookup_pair
  cases hf : games.find? (fun g => g.appid == a) with
  | none => rfl
  | some g => simpa using List.find?_some hf

/-! ### Claim theorems -/

/-- C1 (counterexample): the claim that no per-identifier error propagates
out of `fetch_icon_by_app_id` fails: with a disconnected session, SteamCMD
present, a usable `clienticon` line in the output, and a transport error in
the icon download, the `requests` exception escapes the function (its
`except` clause only catches `CalledProcessError`) and aborts the batch
loop, leaving the second identifier unprocessed. -/
theorem c1_counterexample :
    fetch_icon_by_app_id envRaise "C:/Steam" "730" "" [] []
        = FetchOutcome.raised PyExc.requestException [] []
      ∧ run_batch (fun _ => envRaise) "C:/Steam" [] ["730", "440"] [] []
        = ⟨BStatus.raised PyExc.requestException, ["730"], [], []⟩ :=
  ⟨by decide, by decide⟩

/-- C1 (amended): every fast-path error is caught inside the engine, and in
the fallback path only `CalledProcessError` is caught; thus an exception
escapes `fetch_icon_by_app_id` only from the fallback path and is never a
`CalledProcessError`. -/
theorem c1_no_propagation_amended (env : FetchEnv)
    (steamPath app_id game_name : String) (fs : FS) (failed : List FailureRecord)
    (e : PyExc) (fs' : FS) (failed' : List FailureRecord)
    (h : fetch_icon_by_app_id env steamPath app_id game_name fs failed
          = FetchOutcome.raised e fs' failed') :
    env.connected = false ∧ e ≠ PyExc.calledProcessError := by
  by_cases hc : env.connected
  · rw [fetch_icon_by_app_id, if_pos hc] at h
    exact absurd h
      (fast_path_ne_raised env steamPath app_id game_name fs failed e fs' failed')
  · rw [fetch_icon_by_app_id, if_neg hc] at h
    refine ⟨by simpa using hc, ?_⟩
    cases hens : ensure_steamcmd env with
    | error u => rw [hens] at h; simp at h
    | ok u =>
      rw [hens] at h
      exact fallback_try_raised_not_cpe env steamPath app_id game_name fs failed
        e fs' failed' h

/-- C1 (amended, witness): the amended statement at the concrete raising
environment. -/
theorem c1_no_propagation_amended_witness :
    envRaise.connected = false
      ∧ PyExc.requestException ≠ PyExc.calledProcessError :=
  c1_no_propagation_amended envRaise "C:/Steam" "730" "" [] []
    PyExc.requestException [] [] (by decide)

/-- C3: with a connected session, whenever the metadata lookup does not
deliver a `clienticon` value (no field, no product entry, or an exception),
the call returns with disk and failure list unchanged: no fallback, no
`FailureRecord`, only a printed message. -/
theorem c3_connected_no_icon_silent (env : FetchEnv)
    (steamPath app_id game_name : String) (fs : FS) (failed : List FailureRecord)
    (hc : env.connected = true)
    (hm : ∀ stem, env.fastMeta ≠ FastMeta.clientIcon stem) :
    fetch_icon_by_app_id env steamPath app_id game_name fs failed
      = FetchOutcome.normal fs failed := by
  rw [fetch_icon_by_app_id, if_pos hc]
  cases hfm : env.fastMeta with
  | clientIcon stem => exact absurd hfm (hm stem)
  | throws => simp [fast_path, hfm]
  | empty => simp [fast_path, hfm]
  | noClientIcon => simp [fast_path, hfm]

/-- C3 (witness): the theorem at a concrete connected environment whose
lookup finds no `clienticon` field. -/
theorem c3_connected_no_icon_silent_witness :
    fetch_icon_by_app_id envConnectedNoIcon "C:/Steam" "730" "CS" [] []
      = FetchOutcome.normal [] [] :=
  c3_connected_no_icon_silent envConnectedNoIcon "C:/Steam" "730" "CS" [] [] rfl
    (fun stem h => by simp [envConnectedNoIcon] at h)

/-- C4: on a run with at least one failure, the printed retry line is the
program invocation followed by exactly the `appid`s of the accumulated
`FailureRecord`s, space-joined, in the order the failures were appended. -/
theorem c4_retry_command_exact (fenv : String → FetchEnv) (steam_path : String)
    (games : List Game) (app_ids : List String) (fs : FS)
    (h : (run_batch fenv steam_path games app_ids fs []).failed ≠ []) :
    retry_report (run_batch fenv steam_path games app_ids fs []).failed
      = some ("python .\\SteamIconsFix.py "
          ++ String.intercalate " "
            ((run_batch fenv steam_path games app_ids fs []).failed.map
              (fun r => r.appid))) := by
  have hne : (run_batch fenv steam_path games app_ids fs []).failed.isEmpty = false := by
    cases hfl : (run_batch fenv steam_path games app_ids fs []).failed with
    | nil => exact absurd hfl h
    | cons a l => rfl
  simp [retry_report, retry_command, hne]

/-- C4 (witness): a concrete failing run over one unknown identifier prints
a retry command listing exactly that identifier. -/
theorem c4_retry_command_exact_witness :
    retry_report (run_batch (fun _ => envNotFound) "C:/Steam" [] ["9999999"] [] []).failed
      = some ("python .\\SteamIconsFix.py "
          ++ String.intercalate " "
            ((run_batch (fun _ => envNotFound) "C:/Steam" [] ["9999999"] [] []).failed.map
              (fun r => r.appid))) :=
  c4_retry_command_exact (fun _ => envNotFound) "C:/Steam" [] ["9999999"] [] (by decide)

/-- C5: the download step issues its single GET on the URL
`https://<cdn>/steamcommunity/public/images/apps/<appId>/<stem>.ico`; on
status 200 it writes the body to `<installDir>/steam/games/<stem>.ico` and
appends nothing; on any other status it writes nothing and appends one
`failed_to_download` record. -/
theorem c5_download_step (http : String → Except PyExc HttpResponse)
    (app_id stem game_name install_dir : String) (fs : FS)
    (failed : List FailureRecord) (resp : HttpResponse)
    (h : http (icon_url app_id stem) = Except.ok resp) :
    icon_url app_id stem
        = "https://cdn.cloudflare.steamstatic.com/steamcommunity/public/images/apps/"
            ++ app_id ++ "/" ++ stem ++ ".ico"
      ∧ icon_file_path install_dir stem
        = install_dir ++ "/steam/games/" ++ stem ++ ".ico"
      ∧ download_icon http app_id stem (icon_url app_id stem) game_name install_dir
            fs failed
        = (if resp.status = 200 then
            Except.ok (fsWrite fs (icon_file_path install_dir stem) resp.content, failed)
          else
            Except.ok (fs, failed ++ [⟨app_id, game_name, "failed_to_download"⟩])) := by
  refine ⟨rfl, rfl, ?_⟩
  rw [download_icon, h]

/-- C5 (witness): the download step at a concrete 200 response writes the
body at the icon path and appends no record. -/
theorem c5_download_step_witness :
    download_icon (fun _ => Except.ok ⟨200, [7, 7]⟩) "730" "icon_abc"
        (icon_url "730" "icon_abc") "CS" "C:/Steam" [] []
      = Except.ok ([(icon_file_path "C:/Steam" "icon_abc", [7, 7])], []) := by
  have h := c5_download_step (fun _ => Except.ok ⟨200, [7, 7]⟩) "730" "icon_abc"
    "CS" "C:/Steam" [] [] ⟨200, [7, 7]⟩ rfl
  simpa [fsWrite] using h.2.2

/-- C2: an `icon_not_found` record is appended exactly when the call takes
the fallback path (session disconnected, SteamCMD present or successfully
installed), the SteamCMD run and the output-file read succeed, and no
output line contains the quoted `clienticon` key; no other path produces
that reason. -/
theorem c2_icon_not_found_iff (env : FetchEnv) (steamPath app_id game_name : String)
    (fs : FS) (failed : List FailureRecord) :
    (fetch_icon_by_app_id env steamPath app_id game_name fs failed).failedList
        = failed ++ [⟨app_id, game_name, "icon_not_found"⟩]
      ↔ env.connected = false
          ∧ ensure_steamcmd env = Except.ok ()
          ∧ env.run_result = Except.ok ()
          ∧ ∃ lines, env.read_lines = Except.ok lines
              ∧ ∀ l ∈ lines, occursB clienticonKey l = false := by
  by_cases hc : env.connected
  · rw [fetch_icon_by_app_id, if_pos hc]
    rcases fast_path_new env steamPath app_id game_name fs failed with ⟨new, h1, h2⟩
    rw [h1]
    constructor
    · intro h
      exfalso
      have hnew := List.append_cancel_left h
      have hmem : (⟨app_id, game_name, "icon_not_found"⟩ : FailureRecord) ∈ new := by
        rw [hnew]
        exact List.mem_singleton_self _
      have hreason : ("icon_not_found" : String) = "failed_to_download" :=
        (h2 _ hmem).2
      exact absurd hreason (by decide)
    · rintro ⟨hfalse, -⟩
      rw [hc] at hfalse
      cases hfalse
  · rw [fetch_icon_by_app_id, if_neg hc]
    cases hens : ensure_steamcmd env with
    | error u =>
      simp only [FetchOutcome.failedList]
      constructor
      · intro h
        exact absurd h (ne_append_single _ _)
      · rintro ⟨-, he, -⟩
        simp at he
    | ok u =>
      obtain ⟨⟩ := u
      rw [fallback_try_inf_iff]
      constructor
      · intro hC
        exact ⟨by simpa using hc, rfl, hC.1, hC.2⟩
      · rintro ⟨-, -, hr, hrest⟩
        exact ⟨hr, hrest⟩

/-- C6 (counterexample): the claim that `228980` is never passed to the
engine fails for the process-all-installed path: with a manifest entry for
the redistributable the `all` loop calls the engine on `228980`, and it can
end up in a `FailureRecord`. -/
theorem c6_counterexample :
    (run_all (fun _ => envNotFound) "C:/Steam"
        [⟨"228980", "Steam Common Redistributables"⟩] [] []).calls = ["228980"]
      ∧ (run_all (fun _ => envNotFound) "C:/Steam"
          [⟨"228980", "Steam Common Redistributables"⟩] [] []).failed
        = [⟨"228980", "Steam Common Redistributables", "icon_not_found"⟩] :=
  ⟨by decide, by decide⟩

/-- C6 (amended): in the explicit-argument branch, `228980` is skipped
before ever reaching the engine: it appears in no engine call and, if no
prior record carries it, in no `FailureRecord` of the run. -/
theorem c6_explicit_skip_amended (fenv : String → FetchEnv) (steam_path : String)
    (games : List Game) (app_ids : List String) (fs : FS)
    (failed : List FailureRecord)
    (h : ∀ r ∈ failed, r.appid ≠ "228980") :
    "228980" ∉ (run_batch fenv steam_path games app_ids fs failed).calls
      ∧ ∀ r ∈ (run_batch fenv steam_path games app_ids fs failed).failed,
          r.appid ≠ "228980" := by
  induction app_ids generalizing fs failed with
  | nil =>
    exact ⟨by simp [run_batch], by simpa [run_batch] using h⟩
  | cons a rest ih =>
    by_cases ha : a = "228980"
    · simp only [run_batch, if_pos ha]
      exact ih fs failed h
    · simp only [run_batch, if_neg ha]
      rcases fetch_new_failures (fenv a) steam_path (lookup_pair games a).1
          (lookup_pair games a).2 fs failed with ⟨new, h1, h2⟩
      have hnew : ∀ r ∈ failed ++ new, r.appid ≠ "228980" := by
        intro r hr
        rcases List.mem_append.mp hr with hrr | hrr
        · exact h r hrr
        · rw [h2 r hrr, lookup_pair_fst]
          exact ha
      cases hfetch : fetch_icon_by_app_id (fenv a) steam_path
          (lookup_pair games a).1 (lookup_pair games a).2 fs failed with
      | normal fs1 failed1 =>
        rw [hfetch] at h1
        simp only [FetchOutcome.failedList] at h1
        subst h1
        rcases ih fs1 (failed ++ new) hnew with ⟨ih1, ih2⟩
        constructor
        · simp only [BatchOutcome.consCall, List.mem_cons, lookup_pair_fst]
          rintro (hEq | hmem)
          · exact ha hEq.symm
          · exact ih1 hmem
        · simpa only [BatchOutcome.consCall] using ih2
      | raised e fs1 failed1 =>
        rw [hfetch] at h1
        simp only [FetchOutcome.failedList] at h1
        subst h1
        refine ⟨?_, hnew⟩
        simp only [List.mem_singleton, lookup_pair_fst]
        exact fun hEq => ha hEq.symm
      | exited c fs1 failed1 =>
        rw [hfetch] at h1
        simp only [FetchOutcome.failedList] at h1
        subst h1
        refine ⟨?_, hnew⟩
        simp only [List.mem_singleton, lookup_pair_fst]
        exact fun hEq => ha hEq.symm

/-- C6 (amended, witness): requesting `228980` and `730` explicitly
processes only `730` and leaves `228980` out of every `FailureRecord`. -/
theorem c6_explicit_skip_amended_witness :
    "228980" ∉ (run_batch (fun _ => envNotFound) "C:/Steam" []
        ["228980", "730"] [] []).calls
      ∧ ∀ r ∈ (run_batch (fun _ => envNotFound) "C:/Steam" []
          ["228980", "730"] [] []).failed,
          r.appid ≠ "228980" :=
  c6_explicit_skip_amended (fun _ => envNotFound) "C:/Steam" []
    ["228980", "730"] [] [] (by simp)

/-- On the fallback side, `exit(1)` is reached exactly when
`ensure_steamcmd` fails: the `try` block itself can never exit. -/
theorem fetch_exited_iff_ensure (env : FetchEnv) (sp id nm : String) (fs : FS)
    (failed : List FailureRecord) (hc : env.connected = false) :
    (∃ c fs' failed', fetch_icon_by_app_id env sp id nm fs failed
        = FetchOutcome.exited c fs' failed')
      ↔ ensure_steamcmd env = Except.error () := by
  simp only [fetch_icon_by_app_id, hc, Bool.false_eq_true, if_false]
  cases hens : ensure_steamcmd env with
  | error u =>
    obtain ⟨⟩ := u
    apply iff_of_true
    · exact ⟨1, fs, failed, rfl⟩
    · rfl
  | ok u =>
    obtain ⟨⟩ := u
    apply iff_of_false
    · rintro ⟨c, fs', failed', hEq⟩
      exact fallback_try_ne_exited env sp id nm fs failed c fs' failed' hEq
    · intro hEq
      simp at hEq

/-- With SteamCMD absent, `ensure_steamcmd` raises into `exit(1)` exactly
when the install-path precondition fails or the self-update run raises a
non-`CalledProcessError` error; zip download/extraction failures never do. -/
theorem ensure_error_iff (env : FetchEnv) (hs : env.steamcmd_exists = false) :
    ensure_steamcmd env = Except.error ()
      ↔ (env.dae.path_ok = false
          ∨ ∃ e, env.update_run = Except.error e ∧ e ≠ PyExc.calledProcessError) := by
  obtain ⟨conn, meta, http, sex, ⟨pok, step⟩, upd, runr, rdl⟩ := env
  cases sex with
  | true => simp at hs
  | false =>
    cases pok with
    | false =>
      apply iff_of_true
      · simp [ensure_steamcmd, download_and_extract]
      · exact Or.inl rfl
    | true =>
      have hdae : download_and_extract ⟨true, step⟩ = Except.ok () := by
        cases step <;> rfl
      cases upd with
      | ok u =>
        obtain ⟨⟩ := u
        apply iff_of_false
        · simp [ensure_steamcmd, hdae]
        · rintro (hpk | ⟨e, hupd, -⟩)
          · simp at hpk
          · simp at hupd
      | error e0 =>
        by_cases hcpe : e0 = PyExc.calledProcessError
        · subst hcpe
          apply iff_of_false
          · simp [ensure_steamcmd, hdae]
          · rintro (hpk | ⟨e, hupd, hne⟩)
            · simp at hpk
            · injection hupd with hupd
              exact hne hupd.symm
        · apply iff_of_true
          · simp [ensure_steamcmd, hdae, hcpe]
          · exact Or.inr ⟨e0, rfl, hcpe⟩

/-- C7 (counterexample): the claim that a zip-extraction failure aborts the
whole run is false: with `BadZipFile` raised inside `download_and_extract`
the error is caught and printed there, the engine proceeds, and the batch
loop continues through further identifiers. -/
theorem c7_counterexample :
    envZipFail.steamcmd_exists = false
      ∧ envZipFail.dae.step = ZipStep.badZip
      ∧ fetch_icon_by_app_id envZipFail "C:/Steam" "730" "" [] []
        = FetchOutcome.normal [] [⟨"730", "", "icon_not_found"⟩]
      ∧ run_batch (fun _ => envZipFail) "C:/Steam" [] ["730", "440"] [] []
        = ⟨BStatus.normal, ["730", "440"], [],
            [⟨"730", "", "icon_not_found"⟩, ⟨"440", "", "icon_not_found"⟩]⟩ :=
  ⟨rfl, rfl, by decide, by decide⟩

/-- C7 (amended): during utility acquisition the run aborts via `exit(1)`
exactly when the install path is not a writeable directory or the
self-update invocation raises something other than `CalledProcessError`;
errors inside the zip download/extraction are caught and the run goes on. -/
theorem c7_exit_iff_amended (env : FetchEnv) (steamPath app_id game_name : String)
    (fs : FS) (failed : List FailureRecord)
    (hc : env.connected = false) (hs : env.steamcmd_exists = false) :
    (∃ c fs' failed',
        fetch_icon_by_app_id env steamPath app_id game_name fs failed
          = FetchOutcome.exited c fs' failed')
      ↔ (env.dae.path_ok = false
          ∨ ∃ e, env.update_run = Except.error e ∧ e ≠ PyExc.calledProcessError) := by
  rw [fetch_exited_iff_ensure env steamPath app_id game_name fs failed hc]
  exact ensure_error_iff env hs

/-- C7 (amended, witness): with the install path not writeable, the run
does abort. -/
theorem c7_exit_iff_amended_witness :
    ∃ c fs' failed',
      fetch_icon_by_app_id envExitPath "C:/Steam" "730" "" [] []
        = FetchOutcome.exited c fs' failed' :=
  (c7_exit_iff_amended envExitPath "C:/Steam" "730" "" [] [] rfl rfl).mpr
    (Or.inl rfl)

/-- A `CalledProcessError` from the SteamCMD invocation is caught and the
`try` block returns at once, before the output file is read. -/
theorem fallback_try_cpe (env : FetchEnv) (sp id nm : String) (fs : FS)
    (failed : List FailureRecord)
    (hr : env.run_result = Except.error PyExc.calledProcessError) :
    fallback_try env sp id nm fs failed = FetchOutcome.normal fs failed := by
  rw [fallback_try, hr]
  simp

/-- C8 (counterexample): the claim that after a non-zero SteamCMD exit the
engine still reads and scans the output file is false: with a usable
`clienticon` line in the file and a CDN that would answer 200, the call
returns with disk and failure list untouched — no download, no
`icon_not_found`. -/
theorem c8_counterexample :
    envCPE.run_result = Except.error PyExc.calledProcessError
      ∧ envCPE.read_lines = Except.ok [iconLine]
      ∧ occursB clienticonKey iconLine = true
      ∧ envCPE.dlHttp (icon_url "730" "abcd") = Except.ok ⟨200, [1, 2, 3]⟩
      ∧ fetch_icon_by_app_id envCPE "C:/Steam" "730" "" [] []
        = FetchOutcome.normal [] [] :=
  ⟨rfl, rfl, by decide, rfl, by decide⟩

/-- C8 (amended): a non-zero SteamCMD exit (`CalledProcessError`) is caught
and logged, but the engine then returns immediately: the output file is
never read and no `FailureRecord` is appended for that identifier. -/
theorem c8_cpe_no_read_amended (env : FetchEnv)
    (steamPath app_id game_name : String) (fs : FS) (failed : List FailureRecord)
    (hc : env.connected = false)
    (he : ensure_steamcmd env = Except.ok ())
    (hr : env.run_result = Except.error PyExc.calledProcessError) :
    fetch_icon_by_app_id env steamPath app_id game_name fs failed
      = FetchOutcome.normal fs failed := by
  rw [fetch_icon_by_app_id, if_neg (by simp [hc]), he]
  exact fallback_try_cpe env steamPath app_id game_name fs failed hr

/-- C8 (amended, witness): the amended statement at the concrete
`CalledProcessError` environment. -/
theorem c8_cpe_no_read_amended_witness :
    fetch_icon_by_app_id envCPE "C:/Steam" "730" "" [] []
      = FetchOutcome.normal [] [] :=
  c8_cpe_no_read_amended envCPE "C:/Steam" "730" "" [] [] rfl rfl rfl

/-- C9: re-running the download step with the same remote response leaves
the file system exactly as after the first run: the same icon path holds
byte-identical content. -/
theorem c9_download_idempotent (http : String → Except PyExc HttpResponse)
    (app_id stem url game_name install_dir : String) (fs fs1 : FS)
    (failed failed1 : List FailureRecord)
    (h : download_icon http app_id stem url game_name install_dir fs failed
          = Except.ok (fs1, failed1)) :
    ∃ failed2,
      download_icon http app_id stem url game_name install_dir fs1 failed1
        = Except.ok (fs1, failed2) := by
  rw [download_icon] at h ⊢
  cases hh : http url with
  | error e => rw [hh] at h; simp at h
  | ok resp =>
    rw [hh] at h
    by_cases hs : resp.status = 200
    · simp [hs] at h ⊢
      rw [← h.1]
      exact fsWrite_idem fs (icon_file_path install_dir stem) resp.content
    · simp [hs] at h ⊢

/-- C9 (witness): downloading again onto the already-written file leaves it
unchanged. -/
theorem c9_download_idempotent_witness :
    ∃ failed2,
      download_icon (fun _ => Except.ok ⟨200, [7, 7]⟩) "730" "icon_abc"
          (icon_url "730" "icon_abc") "CS" "C:/Steam"
          [(icon_file_path "C:/Steam" "icon_abc", [7, 7])] []
        = Except.ok ([(icon_file_path "C:/Steam" "icon_abc", [7, 7])], failed2) :=
  c9_download_idempotent (fun _ => Except.ok ⟨200, [7, 7]⟩) "730" "icon_abc"
    (icon_url "730" "icon_abc") "CS" "C:/Steam" []
    [(icon_file_path "C:/Steam" "icon_abc", [7, 7])] [] [] (by rfl)

/-- C10 (counterexample): the claim that every line containing the quoted
key splits into at least four parts is false: the line consisting of the
bare quoted key passes the `len(parts) > 1` guard with exactly three
parts, so the `parts[3]` access is out of bounds (`IndexError`). -/
theorem c10_counterexample :
    occursB clienticonKey ("\"clienticon\"".data) = true
      ∧ 1 < (splitOnChar '"' (trimChars ("\"clienticon\"".data))).length
      ∧ ¬3 < (splitOnChar '"' (trimChars ("\"clienticon\"".data))).length
      ∧ scan_lines [("\"clienticon\"".data)] = ScanResult.idxError :=
  ⟨by decide, by decide, by decide, by decide⟩

/-- C10 (amended): every line containing the quoted `clienticon` key splits
into at least three parts — so the `len(parts) > 1` guard always passes —
but only three are guaranteed, so index 3 may be out of bounds. -/
theorem c10_parts_bound_amended (line : List Char)
    (h : occursB clienticonKey line = true) :
    1 < (splitOnChar '"' (trimChars line)).length
      ∧ 3 ≤ (splitOnChar '"' (trimChars line)).length := by
  have h3 := parts_ge_three line h
  exact ⟨by omega, h3⟩

/-- C10 (amended, witness): the guaranteed bound at a concrete icon line. -/
theorem c10_parts_bound_amended_witness :
    1 < (splitOnChar '"' (trimChars iconLine)).length
      ∧ 3 ≤ (splitOnChar '"' (trimChars iconLine)).length :=
  c10_parts_bound_amended iconLine (by decide)

end SteamIconsFix
